import Mathlib

/-!
Verification of the BotBuilder build/debug/run lifecycle orchestrator.

Shallow embedding of the core logic of `App` (the second component in
`src/components/Tooltip.tsx`), of the build client `buildBot`
(`src/services/backendService.ts`), and of the `BotRunner` rebuild guard
(second component in `src/components/ProgressTracker.tsx`).

Conventions: TypeScript arrays become `List`, JS `Set` (insertion ordered)
becomes a duplicate-free `List` built by `insertNoDup`, strings stay
`String`.  `Date` timestamps are not modelled (no claim depends on them).
-/

/-! ## Data model (src/unnamed/part_000, `types.ts`) -/

/-- BuildState from types.ts. -/
inductive BuildState
  | IDLE | VALIDATING | GATHERING_CONFIG | PLANNING | CODING
  | BUILDING | DEBUGGING | RUNNING | SUCCESS | ERROR
deriving DecidableEq, Repr

/-- BotRuntimeState from types.ts. -/
inductive BotRuntimeState
  | STOPPED | RUNNING
deriving DecidableEq, Repr

/-- LogType from types.ts. -/
inductive LogType
  | log | error | user | bot | raw
deriving DecidableEq, Repr

/-- GeneratedFile from types.ts (name is the identity, code the full text). -/
structure GeneratedFile where
  name : String
  code : String
deriving DecidableEq, Repr

/-- FixedFile from types.ts: a patched file produced by the repair collaborator. -/
structure FixedFile where
  name : String
  code : String
  changes_summary : String
deriving DecidableEq, Repr

/-- LogEntry from types.ts, minus the `Date` timestamp (no claim depends on it). -/
structure LogEntry where
  message : String
  type : LogType
deriving DecidableEq, Repr

/-- RUNTIME_DURATION_SECONDS (Tooltip.tsx line 34). -/
def RUNTIME_DURATION_SECONDS : Nat := 600

/-- MAX_FIX_ATTEMPTS (Tooltip.tsx line 35). -/
def MAX_FIX_ATTEMPTS : Nat := 3

/-! ## JS string helpers

`String.prototype.includes`, modelled over the character list. -/

/-- Model of "the character list cs starts with the character list p". -/
def leadsWith : List Char → List Char → Bool
  | [], _ => true
  | _ :: _, [] => false
  | a :: as, b :: bs => a == b && leadsWith as bs

/-- Model of "the character list contains p as a contiguous segment". -/
def hasSubseg (p : List Char) : List Char → Bool
  | [] => leadsWith p []
  | c :: cs => leadsWith p (c :: cs) || hasSubseg p cs

/-- Model of JS `m.includes(pat)`. -/
def msgIncludes (m pat : String) : Bool := hasSubseg pat.toList m.toList

/-! ## Patch merge (runDebugStep, Tooltip.tsx lines 205-216)

`fixData.fixed_files.forEach(...)`: for each fixed file, `findIndex` on the
name; if found, replace the element in place, otherwise `push` to the end.
`applyFixedFile` realizes one iteration (first name match is replaced in
place; no match appends at the end), `applyFixes` the whole `forEach`. -/

/-- One iteration of the fixed-file merge loop (Tooltip.tsx lines 207-216). -/
def applyFixedFile (files : List GeneratedFile) (ff : FixedFile) : List GeneratedFile :=
  match files with
  | [] => [⟨ff.name, ff.code⟩]
  | f :: rest =>
    if f.name = ff.name then ⟨ff.name, ff.code⟩ :: rest
    else f :: applyFixedFile rest ff

/-- The full fixed-file merge (`fixed_files.forEach`, Tooltip.tsx lines 207-216). -/
def applyFixes (files : List GeneratedFile) (fixes : List FixedFile) : List GeneratedFile :=
  fixes.foldl applyFixedFile files

/-! ## Dependency-manifest union (runDebugStep, Tooltip.tsx lines 218-226)

`new Set(reqsFile.code.split('\n').map(r => r.trim()).filter(Boolean))`,
then `updated_requirements.forEach(req => existingReqs.add(req))`, then
`Array.from(existingReqs).join('\n')`.  A JS `Set` keeps insertion order
and deduplicates by exact string; new entries are added as-is (untrimmed). -/

/-- Model of JS `s.trim()`: strip whitespace from both ends. -/
def jsTrim (s : String) : String :=
  ⟨((s.data.dropWhile Char.isWhitespace).reverse.dropWhile Char.isWhitespace).reverse⟩

/-- Helper for `splitLines`: accumulate the current line (reversed) while
scanning the remaining characters. -/
def splitLinesAux : List Char → List Char → List String
  | acc, [] => [⟨acc.reverse⟩]
  | acc, c :: cs => if c = '\n' then ⟨acc.reverse⟩ :: splitLinesAux [] cs
                    else splitLinesAux (c :: acc) cs

/-- Model of JS `s.split('\n')`. -/
def splitLines (s : String) : List String := splitLinesAux [] s.data

/-- Insertion into an insertion-ordered duplicate-free list (JS `Set.add`). -/
def insertNoDup (l : List String) (s : String) : List String :=
  if s ∈ l then l else l ++ [s]

/-- Model of `new Set(l)` for a JS string array: dedupe keeping first occurrences. -/
def setFromList (l : List String) : List String := l.foldl insertNoDup []

/-- The manifest's existing non-blank trimmed lines
(`code.split('\n').map(r => r.trim()).filter(Boolean)`). -/
def trimmedNonBlank (code : String) : List String :=
  ((splitLines code).map jsTrim).filter (fun s => s ≠ "")

/-- Result lines of the requirements merge (Tooltip.tsx lines 222-224):
the deduped existing trimmed non-blank lines, then each new entry added
verbatim through the `Set`. -/
def mergeReqLines (code : String) (updated : List String) : List String :=
  updated.foldl insertNoDup (setFromList (trimmedNonBlank code))

/-- The new `requirements.txt` content (`Array.from(existingReqs).join('\n')`). -/
def mergeRequirements (code : String) (updated : List String) : String :=
  String.intercalate "\n" (mergeReqLines code updated)


/-! ## Orchestrator session state (App, Tooltip.tsx)

One record holds the `useState`/`useRef` fields of `App` that the claims
touch.  Presentation-only fields (modal, token form, metadata, secrets) are
omitted.  `intervalArmed` models `countdownIntervalRef` holding a live
interval, `streamOpen` models `runtimeLogStreamRef` holding an open
`EventSource`.

`capturedStop` models a React closure fact: `startBot` installs into the
countdown interval (and the log-stream error handler) the `stopBot`
callback created in the same render as itself, and that closure read the
render-time value of `runtimeState`.  `capturedStop` records that captured
value; it is what the interval's `stopBot` compares against `'STOPPED'`. -/

/-- The App component state (Tooltip.tsx lines 46-62). -/
structure AppState where
  buildState : BuildState
  logs : List LogEntry
  generatedFiles : List GeneratedFile
  hasUnrebuiltChanges : Bool
  buildLoopAttempt : Nat
  lastBuildError : String
  runtimeState : BotRuntimeState
  runtimeLogs : List LogEntry
  countdown : Nat
  intervalArmed : Bool
  streamOpen : Bool
  capturedStop : Option BotRuntimeState
deriving DecidableEq, Repr

/-- The initial App state (the `useState`/`useRef` initializers). -/
def initialAppState : AppState :=
  ⟨.IDLE, [], [], false, 0, "", .STOPPED, [], RUNTIME_DURATION_SECONDS, false, false, none⟩

/-- resetBuild (Tooltip.tsx lines 75-85). -/
def resetBuild (s : AppState) : AppState :=
  { s with
    buildState := .IDLE, logs := [], generatedFiles := [],
    buildLoopAttempt := 0, lastBuildError := "", hasUnrebuiltChanges := false }

/-- resetRuntime (Tooltip.tsx lines 87-97): cancel the interval, close the
stream, stop the runtime, empty the runtime log, restore the countdown. -/
def resetRuntime (s : AppState) : AppState :=
  { s with
    intervalArmed := false, streamOpen := false, capturedStop := none,
    runtimeState := .STOPPED, runtimeLogs := [], countdown := RUNTIME_DURATION_SECONDS }

/-- stopBot (Tooltip.tsx lines 99-110) as executed by a closure whose
captured `runtimeState` is `captured`: the guard compares the captured
value, the effects (stream close, interval cancel, state update, logs) act
on the current state through the refs and state setters. -/
def stopBotClosure (captured : BotRuntimeState) (s : AppState) : AppState :=
  if captured = .STOPPED then s
  else { s with
    runtimeLogs := s.runtimeLogs ++
      [⟨"Stopping bot...", .log⟩, ⟨"Bot stopped successfully.", .log⟩],
    streamOpen := false, intervalArmed := false, runtimeState := .STOPPED }

/-- startBot (Tooltip.tsx lines 112-146), on the path where `backend.runBot`
succeeds: guard on the current runtime state, clear the runtime log, open
the log stream, reset the countdown to 600 and arm the 1-Hz interval.  The
interval holds the `stopBot` closure created in the same render as this
`startBot`, whose captured `runtimeState` is the pre-start value — hence
`capturedStop := some s.runtimeState`. -/
def startBot (s : AppState) : AppState :=
  if s.runtimeState = .RUNNING then s
  else { s with
    runtimeState := .RUNNING,
    runtimeLogs := [⟨"Starting bot session...", .log⟩,
                    ⟨"Bot container started successfully.", .log⟩],
    streamOpen := true,
    countdown := RUNTIME_DURATION_SECONDS,
    intervalArmed := true,
    capturedStop := some s.runtimeState }

/-- One firing of the countdown interval (Tooltip.tsx lines 132-140): at
`countdown <= 1` it invokes the interval's (captured) `stopBot` and writes 0,
otherwise it decrements. -/
def tick (s : AppState) : AppState :=
  if s.intervalArmed then
    if s.countdown ≤ 1 then
      { stopBotClosure (s.capturedStop.getD .STOPPED) s with countdown := 0 }
    else { s with countdown := s.countdown - 1 }
  else s

/-- handleReset (Tooltip.tsx lines 158-162): stop (with the current render's
fresh closure), then resetBuild, then resetRuntime. -/
def handleReset (s : AppState) : AppState :=
  resetRuntime (resetBuild (stopBotClosure s.runtimeState s))

/-! ## Build-log truncation (Tooltip.tsx lines 337-339 and 421-432)

Both `handleRebuild` and the ERROR branch of `onClearLogs` locate the
boundary with `logs.findIndex(l => l.message.includes('Connecting to build
server'))` — a content scan for a sentinel phrase, not a recorded index. -/

/-- The sentinel phrase scanned for by the truncation code. -/
def buildServerSentinel : String := "Connecting to build server"

/-- The log truncation in handleRebuild (Tooltip.tsx lines 338-339):
`slice(0, idx > -1 ? idx : logs.length)`. -/
def truncateLogsForRebuild (logs : List LogEntry) : List LogEntry :=
  match logs.findIdx? (fun l => msgIncludes l.message buildServerSentinel) with
  | some i => logs.take i
  | none => logs

/-- The build-log clear in onClearLogs, ERROR branch (Tooltip.tsx lines
423-428): `idx > -1 ? slice(0, idx) : []`. -/
def clearLogsOnError (logs : List LogEntry) : List LogEntry :=
  match logs.findIdx? (fun l => msgIncludes l.message buildServerSentinel) with
  | some i => logs.take i
  | none => []

/-- handleRebuild (Tooltip.tsx lines 331-344): log the rebuild message, stop
the runtime if running, reset the runtime, truncate the build log at the
sentinel, reset the attempt counter and the last error, and start a build
step (entering BUILDING; its first progress log is the connect message). -/
def handleRebuild (s : AppState) : AppState :=
  let s1 := if s.runtimeState ≠ .STOPPED then stopBotClosure s.runtimeState s else s
  let s2 := resetRuntime s1
  let s3 := { s2 with
    logs := truncateLogsForRebuild
      (s2.logs ++ [(⟨"Rebuilding bot with your changes...", .log⟩ : LogEntry)]),
    buildLoopAttempt := 0, lastBuildError := "" }
  { s3 with
    buildState := .BUILDING,
    logs := s3.logs ++ [(⟨"Connecting to build server...", .log⟩ : LogEntry)] }

/-- The Rebuild button guard (BotRunner, second component of
ProgressTracker.tsx): `disabled={!hasUnrebuiltChanges}` in the error-state
header (line 231) and in the normal header (line 275) alike — the error
state does not by itself enable the button. -/
def rebuildEnabled ( _isErrorState : Bool) (hasUnrebuiltChanges : Bool) : Bool :=
  hasUnrebuiltChanges

/-- Modelled from the spec: the transition-table guard "unrebuilt changes
present or ERROR", written down only to be compared with the code's
`rebuildEnabled`. -/
def rebuildEnabledSpec (isErrorState : Bool) (hasUnrebuiltChanges : Bool) : Bool :=
  hasUnrebuiltChanges || isErrorState


/-- A post-build state (entering SUCCESS), used to exercise the runtime session. -/
def successAppState : AppState := { initialAppState with buildState := .SUCCESS }

/-- A small concrete build log: one generation-phase entry, then the first
build attempt's connect log, then one build progress line. -/
def demoBuildLogs : List LogEntry :=
  [⟨"Analyzing requirements and planning bot structure...", .log⟩,
   ⟨"Connecting to build server...", .log⟩,
   ⟨"Step 1/5 : FROM python:3.11-slim", .log⟩]


/-! ## Build executor client (buildBot, backendService.ts lines 12-106)

Per-connection behaviour: a watchdog is armed on creation; each handler
(`onmessage`, `onerror`, `onclose`) clears it (`cleanup`) and resolves at
most one outcome through the `completed` single-resolution flag. -/

/-- A message parsed from the build socket (the `data.type` switch,
backendService.ts lines 51-87).  The optional BUILD_ERROR message models
`data.message || ...` falling back when the field is absent or empty. -/
inductive WsMsg
  | buildLog (line : String)
  | buildDone
  | buildError (message : Option String)
deriving DecidableEq, Repr

/-- An event delivered to one build connection's handlers. -/
inductive WsEvent
  | msg (m : WsMsg)
  | errorEvent
  | close (code : Nat)
deriving DecidableEq, Repr

/-- A callback invocation observed by the orchestrator (the `onProgress`,
`onComplete`, `onError` callbacks passed by `runBuildStep`). -/
inductive CbCall
  | progress (line : String)
  | complete
  | failure (message : String)
deriving DecidableEq, Repr

/-- Whether a callback reports a build outcome (completion or error). -/
def isOutcomeCall : CbCall → Bool
  | .complete => true
  | .failure _ => true
  | .progress _ => false

/-- The build client's per-connection mutable state (backendService.ts
lines 29-44): the single-resolution flag `completed`, the accumulated
error-marker lines, and whether the watchdog timer is still armed. -/
structure WsClientState where
  completed : Bool
  accumulatedErrorLogs : String
  timerArmed : Bool
deriving DecidableEq, Repr

/-- Client state right after `buildBot` opens the connection. -/
def initWsClientState : WsClientState := ⟨false, "", true⟩

/-- JS `a || b` for strings (the empty string is falsy). -/
def jsOrElse (a b : String) : String := if a = "" then b else a

/-- Model of JS `s.toLowerCase()`. -/
def jsToLower (s : String) : String := ⟨s.data.map Char.toLower⟩

/-- One handler dispatch of the build client (backendService.ts lines
51-104).  BUILD_LOG forwards the line and accumulates it when it contains
the error marker; BUILD_DONE / BUILD_ERROR / a transport error resolve the
outcome once and cancel the watchdog; a close event without a prior
terminal resolves an error unless the code is 1000 (normal closure), in
which case only the watchdog is cancelled.  (The unexpected-close message
interpolates the code and reason in the source; the constant here stands
for it, no claim depends on its text.) -/
def wsStep (s : WsClientState) (e : WsEvent) : WsClientState × List CbCall :=
  match e with
  | .msg (.buildLog line) =>
      ({ s with accumulatedErrorLogs :=
          if msgIncludes (jsToLower line) "error" then s.accumulatedErrorLogs ++ line ++ "\n"
          else s.accumulatedErrorLogs },
       [.progress line])
  | .msg .buildDone =>
      if s.completed then ({ s with timerArmed := false }, [])
      else ({ s with timerArmed := false, completed := true },
            [.progress "Build complete", .complete])
  | .msg (.buildError m) =>
      if s.completed then ({ s with timerArmed := false }, [])
      else ({ s with timerArmed := false, completed := true },
            [.failure (jsOrElse (m.getD "")
              (jsOrElse s.accumulatedErrorLogs "Unknown build error."))])
  | .errorEvent =>
      if s.completed then ({ s with timerArmed := false }, [])
      else ({ s with timerArmed := false, completed := true },
            [.failure "WebSocket connection failed. Could not connect to the build server."])
  | .close code =>
      if ¬ s.completed ∧ code ≠ 1000 then
        ({ s with timerArmed := false, completed := true },
         [.failure "Build connection closed unexpectedly."])
      else ({ s with timerArmed := false }, [])

/-- Run one connection's handlers over a sequence of delivered events,
collecting the callback invocations in order. -/
def wsRun (s : WsClientState) : List WsEvent → WsClientState × List CbCall
  | [] => (s, [])
  | e :: es =>
    let r := wsStep s e
    let r2 := wsRun r.1 es
    (r2.1, r.2 ++ r2.2)

/-! ## The build/debug loop (runBuildStep / handleBuildError / runDebugStep,
Tooltip.tsx lines 164-235)

The loop is driven by two oracles: the executor outcome of each build
connection (numbered 0, 1, 2, …) and the repair collaborator's response to
each debug invocation.  The run returns the final loop state and a trace
of events in program order:

* `.enteredState b` — a `setBuildState(b)` call;
* `.connOpened k` / `.connClosed k code` — connection k opened / closed;
* `.buildFailed k` / `.buildSucceeded k` — connection k's outcome callback;
* `.debugInvoked n` — the n-th `geminiService.debugCode` call is issued.

Event order is taken from the source.  On BUILD_ERROR the client invokes
`onError` (which runs `handleBuildError` and the synchronous head of
`runDebugStep` up to the first `await`, i.e. through issuing the repair
call) and only then executes `ws.close(4001)`; so does the transport-error
path (the dying socket is recorded as closed there).  On a client-side
timeout the `ws.close(4008)` precedes the `onError` callback, likewise an
unexpected server close precedes its callback.  In every path the failed
connection is closed before the repair result is processed, hence before
`runBuildStep` opens the next connection. -/

/-- The build executor's behaviour on one connection, as observable by the
client: terminal BUILD_DONE; terminal BUILD_ERROR; no response until the
client watchdog fires; a transport error; an unexpected close with a code;
or a normal (1000) close with no terminal message. -/
inductive ExecOutcome
  | done
  | buildError (msg : String)
  | timeout
  | transportError
  | unexpectedClose (code : Nat)
  | silentClose
deriving DecidableEq, Repr

/-- The repair collaborator's response to one `debugCode` call: a patch
(fixed files plus updated requirements) or a thrown exception. -/
inductive DebugResult
  | patch (fixes : List FixedFile) (updatedReqs : List String)
  | throws (msg : String)
deriving DecidableEq, Repr

/-- Whether a repair result is fatal to the debug step (Tooltip.tsx lines
200-202 and 231-234): the collaborator threw, or returned zero patched
files (which the code turns into a thrown error). -/
def debugFatal : DebugResult → Bool
  | .throws _ => true
  | .patch [] _ => true
  | .patch (_ :: _) _ => false

/-- Trace events of the build/debug loop. -/
inductive BuildEvent
  | enteredState (b : BuildState)
  | connOpened (id : Nat)
  | connClosed (id : Nat) (code : Nat)
  | buildFailed (id : Nat)
  | buildSucceeded (id : Nat)
  | debugInvoked (n : Nat)
deriving DecidableEq, Repr

/-- The loop-relevant slice of the session state: `buildState`,
`buildLoopAttempt`, `currentBuildFiles`, `lastBuildError`. -/
structure LoopState where
  buildState : BuildState
  attempt : Nat
  files : List GeneratedFile
  lastError : String
deriving DecidableEq, Repr

/-- Update the first `requirements.txt` (the `find` + in-place mutation of
Tooltip.tsx lines 219-225); the identity when no manifest file exists. -/
def updateFirstReqs (files : List GeneratedFile) (updated : List String) : List GeneratedFile :=
  match files with
  | [] => []
  | f :: rest =>
    if f.name = "requirements.txt" then
      { f with code := mergeRequirements f.code updated } :: rest
    else f :: updateFirstReqs rest updated

/-- The whole patch application of `runDebugStep` (Tooltip.tsx lines
205-226): merge the fixed files, then, when a non-empty updated dependency
list is present, update the manifest file. -/
def debugMerge (files : List GeneratedFile) (fixes : List FixedFile)
    (updatedReqs : List String) : List GeneratedFile :=
  let updated := applyFixes files fixes
  if updatedReqs ≠ [] then updateFirstReqs updated updatedReqs else updated

/-- The continuation after a build failure: `handleBuildError` (Tooltip.tsx
lines 164-178) with the attempt counter already incremented into `st1`,
then — if the bound is not reached — the debug step.  `lateClose` carries
the failed connection's close event when the client closes it only after
the failure callback returns (BUILD_ERROR / transport error); it is empty
when the close preceded the callback (timeout / unexpected close).  Returns
`Sum.inl` with the terminal state and its events, or `Sum.inr` with the
state to re-attempt the build on and the events emitted before that. -/
def debugCont (dbg : Nat → DebugResult) (st1 : LoopState) (lateClose : List BuildEvent) :
    (LoopState × List BuildEvent) ⊕ (LoopState × List BuildEvent) :=
  if MAX_FIX_ATTEMPTS ≤ st1.attempt then
    Sum.inl ({ st1 with buildState := .ERROR }, [BuildEvent.enteredState .ERROR] ++ lateClose)
  else
    let n := st1.attempt - 1
    let pre := [BuildEvent.enteredState .DEBUGGING, BuildEvent.debugInvoked n] ++ lateClose
    match dbg n with
    | .throws _ =>
        Sum.inl ({ st1 with buildState := .ERROR }, pre ++ [BuildEvent.enteredState .ERROR])
    | .patch [] _ =>
        Sum.inl ({ st1 with buildState := .ERROR }, pre ++ [BuildEvent.enteredState .ERROR])
    | .patch fixes updatedReqs =>
        Sum.inr
          ({ st1 with
             buildState := .DEBUGGING,
             files := debugMerge st1.files fixes updatedReqs }, pre)

/-- Glue for one failed build attempt: record the failure in the state,
run `debugCont`, and either stop or re-attempt through `recur`. -/
def failStep (dbg : Nat → DebugResult) (recur : LoopState → LoopState × List BuildEvent)
    (stB : LoopState) (msg : String) (opened pre lateClose : List BuildEvent) :
    LoopState × List BuildEvent :=
  match debugCont dbg { stB with attempt := stB.attempt + 1, lastError := msg } lateClose with
  | Sum.inl (stF, evs) => (stF, opened ++ pre ++ evs)
  | Sum.inr (stN, evs) =>
      let r := recur stN
      (r.1, opened ++ pre ++ evs ++ r.2)

/-- The build/debug loop from a given state, with connection ids starting
at `k`.  `fuel` bounds the recursion depth; `MAX_FIX_ATTEMPTS - attempt`
build attempts can happen, so `fuel = MAX_FIX_ATTEMPTS` always suffices
from a reset counter. -/
def runFrom (exec : Nat → ExecOutcome) (dbg : Nat → DebugResult) :
    Nat → LoopState → Nat → LoopState × List BuildEvent
  | 0, st, _ => (st, [])
  | fuel + 1, st, k =>
    let stB : LoopState := { st with buildState := .BUILDING }
    let opened : List BuildEvent := [BuildEvent.enteredState .BUILDING, BuildEvent.connOpened k]
    match exec k with
    | .done =>
        ({ stB with buildState := .SUCCESS },
         opened ++ [BuildEvent.buildSucceeded k, BuildEvent.enteredState .SUCCESS,
                    BuildEvent.connClosed k 1000])
    | .silentClose => (stB, opened ++ [BuildEvent.connClosed k 1000])
    | .buildError msg =>
        failStep dbg (fun stN => runFrom exec dbg fuel stN (k + 1))
          stB msg opened [BuildEvent.buildFailed k] [BuildEvent.connClosed k 4001]
    | .transportError =>
        failStep dbg (fun stN => runFrom exec dbg fuel stN (k + 1))
          stB "WebSocket connection failed. Could not connect to the build server."
          opened [BuildEvent.buildFailed k] [BuildEvent.connClosed k 1006]
    | .timeout =>
        failStep dbg (fun stN => runFrom exec dbg fuel stN (k + 1))
          stB "Build request timed out after 120 seconds."
          opened [BuildEvent.connClosed k 4008, BuildEvent.buildFailed k] []
    | .unexpectedClose code =>
        failStep dbg (fun stN => runFrom exec dbg fuel stN (k + 1))
          stB "Build connection closed unexpectedly."
          opened [BuildEvent.connClosed k code, BuildEvent.buildFailed k] []

/-- The build/debug loop as started by `startCodeGeneration` (Tooltip.tsx
lines 240-241 and 269): attempt counter 0, empty last error, first
connection id 0. -/
def runPipeline (exec : Nat → ExecOutcome) (dbg : Nat → DebugResult)
    (files : List GeneratedFile) : LoopState × List BuildEvent :=
  runFrom exec dbg MAX_FIX_ATTEMPTS ⟨.CODING, 0, files, ""⟩ 0

/-- Number of build attempts in a trace (connections opened). -/
def buildConnCount (tr : List BuildEvent) : Nat :=
  List.countP (fun e => match e with | .connOpened _ => true | _ => false) tr

/-- Number of debug-loop (repair) invocations in a trace. -/
def debugCallCount (tr : List BuildEvent) : Nat :=
  List.countP (fun e => match e with | .debugInvoked _ => true | _ => false) tr

/-- The connection id carried by an event, if any. -/
def connIdOf : BuildEvent → Option Nat
  | .connOpened i => some i
  | .connClosed i _ => some i
  | .buildFailed i => some i
  | .buildSucceeded i => some i
  | _ => none

/-- Connection-discipline checker, one event at a time.  The state is
`(live, next)`: the id of the currently open connection (if any) and the
next fresh connection id.  It enforces, returning `none` on violation:

* a connection opens only while none is live (the previous one was closed
  before the new one opened) and ids are issued sequentially;
* a close names the live connection;
* a build outcome (`buildFailed`/`buildSucceeded`) names the newest
  connection (`id + 1 = next`), so no event of a superseded connection is
  observed once a newer connection has opened. -/
def connStep : (Option Nat × Nat) → BuildEvent → Option (Option Nat × Nat)
  | (none, n), .connOpened i => if i = n then some (some i, n + 1) else none
  | (some _, _), .connOpened _ => none
  | (some c, n), .connClosed i _ => if i = c then some (none, n) else none
  | (none, _), .connClosed _ _ => none
  | (s, n), .buildFailed i => if i + 1 = n then some (s, n) else none
  | (s, n), .buildSucceeded i => if i + 1 = n then some (s, n) else none
  | (live, n), .enteredState _ => some (live, n)
  | (live, n), .debugInvoked _ => some (live, n)

/-- Run the connection-discipline checker over a trace. -/
def connRun : (Option Nat × Nat) → List BuildEvent → Option (Option Nat × Nat)
  | s, [] => some s
  | s, e :: tr => (connStep s e).bind (fun s2 => connRun s2 tr)

/-- A session trace containing a rebuild: a full build/debug loop, then
`handleRebuild` resets the attempt counter and the recorded error and
starts a new loop on the resulting state (possibly while the user believes
the old connection could still be around); connection ids continue from
the first run. -/
def sessionWithRebuild (exec1 exec2 : Nat → ExecOutcome) (dbg1 dbg2 : Nat → DebugResult)
    (fuel2 : Nat) (files : List GeneratedFile) : List BuildEvent :=
  let r1 := runPipeline exec1 dbg1 files
  let r2 := runFrom exec2 dbg2 fuel2 { r1.1 with attempt := 0, lastError := "" }
    (buildConnCount r1.2)
  r1.2 ++ r2.2

/-! # Theorems -/

/-! ## Lemmas about the fixed-file merge -/

/-- Replacing an existing name in place keeps the name sequence unchanged. -/
theorem applyFixedFile_map_name_of_mem (files : List GeneratedFile) (ff : FixedFile)
    (h : ff.name ∈ files.map GeneratedFile.name) :
    (applyFixedFile files ff).map GeneratedFile.name = files.map GeneratedFile.name := by
  induction files with
  | nil => simp at h
  | cons f rest ih =>
    by_cases hf : f.name = ff.name
    · simp [applyFixedFile, hf]
    · simp only [List.map_cons, List.mem_cons] at h
      rcases h with h | h
      · exact absurd h.symm hf
      · simp [applyFixedFile, hf, ih h]

/-- A fixed file whose name is absent is appended at the end. -/
theorem applyFixedFile_append_of_not_mem (files : List GeneratedFile) (ff : FixedFile)
    (h : ff.name ∉ files.map GeneratedFile.name) :
    applyFixedFile files ff = files ++ [⟨ff.name, ff.code⟩] := by
  induction files with
  | nil => simp [applyFixedFile]
  | cons f rest ih =>
    simp only [List.map_cons, List.mem_cons, not_or] at h
    have hf : ¬ f.name = ff.name := fun hc => h.1 hc.symm
    simp [applyFixedFile, hf, ih h.2]

/-- A fixed file whose name is present replaces, in place, the first file of
that name: the list decomposes around the first occurrence, and only the
content at that position changes. -/
theorem applyFixedFile_replace_of_mem (files : List GeneratedFile) (ff : FixedFile)
    (h : ff.name ∈ files.map GeneratedFile.name) :
    ∃ l1 fmid l2, files = l1 ++ fmid :: l2 ∧ fmid.name = ff.name ∧
      ff.name ∉ l1.map GeneratedFile.name ∧
      applyFixedFile files ff = l1 ++ (⟨ff.name, ff.code⟩ : GeneratedFile) :: l2 := by
  induction files with
  | nil => simp at h
  | cons f rest ih =>
    by_cases hf : f.name = ff.name
    · exact ⟨[], f, rest, by simp, hf, by simp, by simp [applyFixedFile, hf]⟩
    · simp only [List.map_cons, List.mem_cons] at h
      rcases h with h | h
      · exact absurd h.symm hf
      · obtain ⟨l1, fmid, l2, hsplit, hname, hnot, happ⟩ := ih h
        refine ⟨f :: l1, fmid, l2, by simp [hsplit], hname, ?_, ?_⟩
        · simp only [List.map_cons, List.mem_cons, not_or]
          exact ⟨fun hc => hf hc.symm, hnot⟩
        · simp [applyFixedFile, hf, happ]

/-- Name-sequence preservation lifts from one fixed file to the whole patch. -/
theorem applyFixes_map_name (files : List GeneratedFile) (fixes : List FixedFile)
    (h : ∀ ff ∈ fixes, ff.name ∈ files.map GeneratedFile.name) :
    (applyFixes files fixes).map GeneratedFile.name = files.map GeneratedFile.name := by
  induction fixes generalizing files with
  | nil => rfl
  | cons ff rest ih =>
    have h0 : ff.name ∈ files.map GeneratedFile.name := h ff (by simp)
    have step := applyFixedFile_map_name_of_mem files ff h0
    have : applyFixes files (ff :: rest) = applyFixes (applyFixedFile files ff) rest := rfl
    rw [this, ih (applyFixedFile files ff) (fun g hg => step ▸ h g (by simp [hg])), step]

/-! ## Lemmas about the dependency union -/

/-- Membership after a `Set.add`: the old members plus the new entry. -/
theorem mem_insertNoDup (l : List String) (a s : String) :
    a ∈ insertNoDup l s ↔ a ∈ l ∨ a = s := by
  unfold insertNoDup
  by_cases h : s ∈ l
  · simp only [if_pos h]
    constructor
    · exact fun ha => Or.inl ha
    · rintro (ha | rfl) <;> assumption
  · simp [if_neg h]

/-- `Set.add` keeps the list duplicate-free. -/
theorem nodup_insertNoDup (l : List String) (s : String) (h : l.Nodup) :
    (insertNoDup l s).Nodup := by
  unfold insertNoDup
  by_cases hs : s ∈ l
  · simpa [if_pos hs]
  · simp only [if_neg hs]
    exact List.Nodup.append h (List.nodup_singleton s) (by simpa using hs)

/-- Membership in a fold of `Set.add`s: the initial members plus the added ones. -/
theorem mem_foldl_insertNoDup (l : List String) (init : List String) (a : String) :
    a ∈ l.foldl insertNoDup init ↔ a ∈ init ∨ a ∈ l := by
  induction l generalizing init with
  | nil => simp
  | cons s rest ih =>
    simp only [List.foldl_cons, ih, mem_insertNoDup, List.mem_cons]
    tauto

/-- A fold of `Set.add`s keeps a duplicate-free list duplicate-free. -/
theorem nodup_foldl_insertNoDup (l : List String) (init : List String) (h : init.Nodup) :
    (l.foldl insertNoDup init).Nodup := by
  induction l generalizing init with
  | nil => exact h
  | cons s rest ih => exact ih _ (nodup_insertNoDup _ _ h)

/-- `new Set(l)` is duplicate-free. -/
theorem nodup_setFromList (l : List String) : (setFromList l).Nodup :=
  nodup_foldl_insertNoDup l [] List.nodup_nil

/-- `new Set(l)` has the same members as `l`. -/
theorem mem_setFromList (l : List String) (a : String) :
    a ∈ setFromList l ↔ a ∈ l := by
  simp [setFromList, mem_foldl_insertNoDup]

/-! ## Claim C6: patch merge is in-place on name match, appending otherwise -/

/-- C6: for every current file set and patch set, the merge replaces in place
(position unchanged) each patched file whose name already exists and appends
each patched file whose name does not exist to the end; a patch whose names
all equal existing names leaves the file count unchanged and preserves the
original name ordering. -/
theorem c6_patch_merge :
    (∀ (files : List GeneratedFile) (fixes : List FixedFile),
      (∀ ff ∈ fixes, ff.name ∈ files.map GeneratedFile.name) →
      (applyFixes files fixes).map GeneratedFile.name = files.map GeneratedFile.name ∧
      (applyFixes files fixes).length = files.length) ∧
    (∀ (files : List GeneratedFile) (ff : FixedFile),
      ff.name ∉ files.map GeneratedFile.name →
      applyFixes files [ff] = files ++ [⟨ff.name, ff.code⟩]) ∧
    (∀ (files : List GeneratedFile) (ff : FixedFile),
      ff.name ∈ files.map GeneratedFile.name →
      ∃ l1 fmid l2, files = l1 ++ fmid :: l2 ∧ fmid.name = ff.name ∧
        ff.name ∉ l1.map GeneratedFile.name ∧
        applyFixes files [ff] = l1 ++ (⟨ff.name, ff.code⟩ : GeneratedFile) :: l2) := by
  refine ⟨fun files fixes h => ?_, fun files ff h => ?_, fun files ff h => ?_⟩
  · have hm := applyFixes_map_name files fixes h
    refine ⟨hm, ?_⟩
    have := congrArg List.length hm
    simpa using this
  · simpa [applyFixes] using applyFixedFile_append_of_not_mem files ff h
  · simpa [applyFixes] using applyFixedFile_replace_of_mem files ff h

/-- Witness for C6 at a concrete file set and name-matching patch. -/
theorem c6_patch_merge_witness :
    (applyFixes [⟨"bot.py", "a"⟩, ⟨"requirements.txt", "b"⟩]
        [⟨"bot.py", "c", "fix"⟩]).map GeneratedFile.name
      = ["bot.py", "requirements.txt"] := by
  have h := (c6_patch_merge.1 [⟨"bot.py", "a"⟩, ⟨"requirements.txt", "b"⟩]
    [⟨"bot.py", "c", "fix"⟩] (by decide)).1
  simpa using h

/-! ## Claim C7: dependency-manifest union (corrected)

The code (Tooltip.tsx line 223) adds each new entry to the `Set` verbatim,
without trimming it, while the existing manifest lines are trimmed
(line 222).  The claimed "exact-string dedupe after trimming" therefore
fails when a new entry carries surrounding whitespace: the result can hold
two entries that trim to the same string. -/

/-- C7 counterexample: existing manifest line "requests" plus new entry
" requests" (leading space) yields the two entries `["requests", " requests"]`,
which trim to the same string — the claimed after-trim dedupe does not hold. -/
theorem c7_counterexample :
    mergeReqLines "requests" [" requests"] = ["requests", " requests"] ∧
    ¬ ((mergeReqLines "requests" [" requests"]).map jsTrim).Nodup := by
  exact ⟨by decide, by decide⟩

/-- C7 amended: the merged manifest is duplicate-free under exact string
comparison (new entries are added verbatim, untrimmed), its members are
exactly the union of the manifest's existing non-blank trimmed lines and
the new entries (hence order of the new entries is irrelevant to
membership), and the spec's example yields exactly the 3-element set. -/
theorem c7_dependency_union :
    (∀ (code : String) (updated : List String), (mergeReqLines code updated).Nodup) ∧
    (∀ (code : String) (updated : List String) (s : String),
      s ∈ mergeReqLines code updated ↔ s ∈ trimmedNonBlank code ∨ s ∈ updated) ∧
    mergeReqLines "aiogram==3.1\nrequests" ["requests", "aiohttp"]
      = ["aiogram==3.1", "requests", "aiohttp"] := by
  refine ⟨fun code updated => ?_, fun code updated s => ?_, by decide⟩
  · exact nodup_foldl_insertNoDup _ _ (nodup_setFromList _)
  · simp [mergeReqLines, mem_foldl_insertNoDup, mem_setFromList]

/-! ## Claim C9: reset clears all session fields -/

/-- C9: after a reset request issued from any state, the generated file set
is empty, both logs are empty, the attempt counter is 0, the runtime state
is STOPPED, and the countdown equals its initial 600 seconds. -/
theorem c9_reset_clears (s : AppState) :
    (handleReset s).generatedFiles = [] ∧ (handleReset s).logs = [] ∧
    (handleReset s).runtimeLogs = [] ∧ (handleReset s).buildLoopAttempt = 0 ∧
    (handleReset s).runtimeState = .STOPPED ∧
    (handleReset s).countdown = RUNTIME_DURATION_SECONDS := by
  unfold handleReset resetBuild resetRuntime stopBotClosure
  by_cases h : s.runtimeState = .STOPPED <;> simp [h]

/-! ## Claim C3: rebuild availability out of ERROR (corrected)

The Rebuild button is `disabled={!hasUnrebuiltChanges}` in the error-state
header exactly as in the normal one, so a build-failure ERROR with no edit
does not offer an enabled rebuild; the guard is "unrebuilt changes
present", without the claimed "or ERROR" disjunct. -/

/-- C3 counterexample: in the ERROR state with no unrebuilt changes the
code's rebuild guard is disabled, while the claimed guard ("unrebuilt
changes present or ERROR") would enable it. -/
theorem c3_counterexample :
    rebuildEnabled true false = false ∧ rebuildEnabledSpec true false = true := by
  decide

/-- C3 amended: from SUCCESS/ERROR the rebuild command, whenever issued,
transitions the session to BUILDING, and its availability is governed
solely by the presence of unrebuilt changes — in ERROR as in SUCCESS; an
ERROR without an edit does not enable it. -/
theorem c3_rebuild_guard :
    (∀ s : AppState, (handleRebuild s).buildState = .BUILDING) ∧
    (∀ e : Bool, rebuildEnabled e true = true) ∧
    (∀ e : Bool, rebuildEnabled e false = false) := by
  refine ⟨fun s => rfl, fun e => rfl, fun e => rfl⟩

/-! ## Claim C4: build-log truncation boundary (corrected)

The truncation boundary is `logs.findIndex(l =>
l.message.includes('Connecting to build server'))` in both `handleRebuild`
and the ERROR branch of `onClearLogs`: a sentinel-content scan, not an
index recorded on first entry into BUILDING. -/

/-- Helper: `findIdx?` (at start index j) finds exactly position b when the
predicate is false on the first b elements and true at position b. -/
theorem findIdx?_eq_of_take {α : Type} (p : α → Bool) (l : List α) (b : Nat) (x : α) (j : Nat)
    (h1 : ∀ y ∈ l.take b, p y = false) (h2 : l[b]? = some x) (h3 : p x = true) :
    List.findIdx? p l j = some (j + b) := by
  induction l generalizing b j with
  | nil => simp at h2
  | cons a as ih =>
    cases b with
    | zero =>
      simp only [List.getElem?_cons_zero, Option.some.injEq] at h2
      subst h2
      rw [List.findIdx?_cons, if_pos h3, Nat.add_zero]
    | succ b =>
      have ha : p a = false := h1 a (by simp [List.take_succ_cons])
      rw [List.findIdx?_cons, if_neg (by simp [ha])]
      have h2' : as[b]? = some x := by simpa using h2
      have h1' : ∀ y ∈ as.take b, p y = false := by
        intro y hy
        exact h1 y (by simp [List.take_succ_cons, hy])
      rw [ih b (j + 1) h1' h2']
      congr 1
      omega

/-- C4 counterexample: a build log whose generation-phase entry (predating
the first build attempt, which starts at index 1) happens to contain the
sentinel phrase.  Both truncations erase that generation-phase entry,
because the boundary is inferred from message content. -/
theorem c4_counterexample :
    clearLogsOnError
        [⟨"Retrying: Connecting to build server failed earlier", .error⟩,
         ⟨"Connecting to build server...", .log⟩] = [] ∧
    truncateLogsForRebuild
        [⟨"Retrying: Connecting to build server failed earlier", .error⟩,
         ⟨"Connecting to build server...", .log⟩] = [] ∧
    ([(⟨"Retrying: Connecting to build server failed earlier", .error⟩ : LogEntry),
      ⟨"Connecting to build server...", .log⟩].take 1) ≠ [] := by
  refine ⟨by decide, by decide, by decide⟩

/-- C4 amended: the truncation boundary is the index of the first log entry
whose message contains the sentinel text "Connecting to build server" —
content-inferred, not a recorded index.  Generation-phase entries
(predating the build boundary b) are preserved exactly under the proviso
that none of them mentions the sentinel while the boundary entry does
(true of the messages the app itself emits): then both clear operations
keep precisely the first b entries. -/
theorem c4_log_truncation (logs : List LogEntry) (b : Nat) (lb : LogEntry)
    (h1 : ∀ l ∈ logs.take b, msgIncludes l.message buildServerSentinel = false)
    (h2 : logs[b]? = some lb)
    (h3 : msgIncludes lb.message buildServerSentinel = true) :
    clearLogsOnError logs = logs.take b ∧ truncateLogsForRebuild logs = logs.take b := by
  have hf : List.findIdx? (fun l => msgIncludes l.message buildServerSentinel) logs = some b := by
    have := findIdx?_eq_of_take (fun l => msgIncludes l.message buildServerSentinel)
      logs b lb 0 h1 h2 h3
    simpa using this
  constructor
  · unfold clearLogsOnError
    rw [hf]
  · unfold truncateLogsForRebuild
    rw [hf]

/-- Witness for C4's amended statement on the concrete demo log. -/
theorem c4_log_truncation_witness :
    clearLogsOnError demoBuildLogs = demoBuildLogs.take 1 ∧
    truncateLogsForRebuild demoBuildLogs = demoBuildLogs.take 1 :=
  c4_log_truncation demoBuildLogs 1 ⟨"Connecting to build server...", .log⟩
    (by decide) (by decide) (by decide)

/-! ## Claim C8: runtime countdown auto-stop (code bug)

`startBot` does set the countdown to 600 and arm the 1-Hz interval, but the
`stopBot` the interval invokes at zero is the closure created in the same
render as `startBot`; that closure captured `runtimeState` while it was
still `'STOPPED'` (the guard at the top of `startBot` had just passed), so
its own guard `if (runtimeState === 'STOPPED') return;` makes the automatic
stop a no-op.  After 600 ticks the session is still RUNNING with countdown
0 and a still-armed interval: zero RUNNING→STOPPED transitions happen,
where the claim (and the code's evident intent in calling `stopBot()`)
expects exactly one. -/

/-- Helper: while the interval holds a stopBot closure that captured
STOPPED, a tick only decrements the countdown (the stop call is a no-op). -/
theorem tick_stale (s : AppState) (hA : s.intervalArmed = true)
    (hC : s.capturedStop = some .STOPPED) :
    tick s = { s with countdown := s.countdown - 1 } := by
  by_cases h : s.countdown ≤ 1
  · have h0 : s.countdown - 1 = 0 := by omega
    simp [tick, hA, hC, stopBotClosure, h, h0]
  · simp [tick, hA, hC, h]

/-- Helper: n stale ticks only subtract n from the countdown. -/
theorem tick_iter_stale (n : Nat) (s : AppState) (hA : s.intervalArmed = true)
    (hC : s.capturedStop = some .STOPPED) :
    tick^[n] s = { s with countdown := s.countdown - n } := by
  induction n with
  | zero => simp
  | succ n ih =>
    rw [Function.iterate_succ_apply', ih,
      tick_stale { s with countdown := s.countdown - n } hA hC]
    simp only [AppState.mk.injEq, and_true, true_and]
    omega

/-- C8: starting a runtime session sets the countdown to 600 and arms the
1-Hz timer, but after 600 one-second ticks with no manual stop the runtime
state is still RUNNING in every intermediate state (zero RUNNING→STOPPED
transitions, not the claimed exactly one) while the countdown sits at 0:
the interval's captured stopBot closure is a guard no-op. -/
theorem c8_stale_auto_stop :
    (startBot successAppState).countdown = 600 ∧
    (startBot successAppState).intervalArmed = true ∧
    ((List.range 601).all
      (fun i => (tick^[i] (startBot successAppState)).runtimeState == .RUNNING)) = true ∧
    (tick^[600] (startBot successAppState)).countdown = 0 := by
  refine ⟨rfl, rfl, ?_, ?_⟩
  · rw [List.all_eq_true]
    intro i _
    rw [tick_iter_stale i _ rfl rfl]
    rfl
  · rw [tick_iter_stale 600 _ rfl rfl]
    rfl

/-! ## Claim C2: at most one live build connection -/

/-- Stepping the connection checker distributes over trace concatenation. -/
theorem connRun_append (p q : List BuildEvent) (s s1 : Option Nat × Nat)
    (h : connRun s p = some s1) : connRun s (p ++ q) = connRun s1 q := by
  induction p generalizing s with
  | nil =>
    simp only [connRun] at h
    cases h
    rfl
  | cons e p ih =>
    have hcons : ∀ (s : Option Nat × Nat) (tr : List BuildEvent),
        connRun s (e :: tr) = (connStep s e).bind (fun s2 => connRun s2 tr) :=
      fun _ _ => rfl
    rw [List.cons_append, hcons]
    rw [hcons] at h
    cases hs : connStep s e with
    | none =>
      rw [hs] at h
      simp at h
    | some s2 =>
      rw [hs] at h
      simp only [Option.some_bind] at h ⊢
      exact ih s2 h

/-- For every executor behaviour, repair behaviour, fuel, start state and
starting connection id, the loop's trace satisfies the connection
discipline: the checker accepts it, ending with no live connection and the
id counter advanced by the number of connections opened. -/
theorem runFrom_conn (exec : Nat → ExecOutcome) (dbg : Nat → DebugResult) (fuel : Nat) :
    ∀ (st : LoopState) (k : Nat),
      connRun (none, k) (runFrom exec dbg fuel st k).2
        = some (none, k + buildConnCount (runFrom exec dbg fuel st k).2) := by
  induction fuel with
  | zero =>
    intro st k
    simp [runFrom, connRun, buildConnCount]
  | succ fuel ih =>
    intro st k
    cases he : exec k with
    | done => simp [runFrom, he, connRun, connStep, buildConnCount]
    | silentClose => simp [runFrom, he, connRun, connStep, buildConnCount]
    | buildError msg =>
      by_cases hb : MAX_FIX_ATTEMPTS ≤ st.attempt + 1
      · simp [runFrom, he, failStep, debugCont, hb, connRun, connStep, buildConnCount]
      · cases hd : dbg st.attempt with
        | throws m =>
          simp [runFrom, he, failStep, debugCont, hb, hd, connRun, connStep, buildConnCount]
        | patch fixes u =>
          cases fixes with
          | nil =>
            simp [runFrom, he, failStep, debugCont, hb, hd, connRun, connStep, buildConnCount]
          | cons f fs =>
            have hrec := ih ⟨.DEBUGGING, st.attempt + 1,
              debugMerge st.files (f :: fs) u, msg⟩ (k + 1)
            simp [runFrom, he, failStep, debugCont, hb, hd, connRun, connStep,
              buildConnCount, List.countP_append, List.countP_cons, hrec]
            omega
    | transportError =>
      by_cases hb : MAX_FIX_ATTEMPTS ≤ st.attempt + 1
      · simp [runFrom, he, failStep, debugCont, hb, connRun, connStep, buildConnCount]
      · cases hd : dbg st.attempt with
        | throws m =>
          simp [runFrom, he, failStep, debugCont, hb, hd, connRun, connStep, buildConnCount]
        | patch fixes u =>
          cases fixes with
          | nil =>
            simp [runFrom, he, failStep, debugCont, hb, hd, connRun, connStep, buildConnCount]
          | cons f fs =>
            have hrec := ih ⟨.DEBUGGING, st.attempt + 1, debugMerge st.files (f :: fs) u,
              "WebSocket connection failed. Could not connect to the build server."⟩ (k + 1)
            simp [runFrom, he, failStep, debugCont, hb, hd, connRun, connStep,
              buildConnCount, List.countP_append, List.countP_cons, hrec]
            omega
    | timeout =>
      by_cases hb : MAX_FIX_ATTEMPTS ≤ st.attempt + 1
      · simp [runFrom, he, failStep, debugCont, hb, connRun, connStep, buildConnCount]
      · cases hd : dbg st.attempt with
        | throws m =>
          simp [runFrom, he, failStep, debugCont, hb, hd, connRun, connStep, buildConnCount]
        | patch fixes u =>
          cases fixes with
          | nil =>
            simp [runFrom, he, failStep, debugCont, hb, hd, connRun, connStep, buildConnCount]
          | cons f fs =>
            have hrec := ih ⟨.DEBUGGING, st.attempt + 1, debugMerge st.files (f :: fs) u,
              "Build request timed out after 120 seconds."⟩ (k + 1)
            simp [runFrom, he, failStep, debugCont, hb, hd, connRun, connStep,
              buildConnCount, List.countP_append, List.countP_cons, hrec]
            omega
    | unexpectedClose code =>
      by_cases hb : MAX_FIX_ATTEMPTS ≤ st.attempt + 1
      · simp [runFrom, he, failStep, debugCont, hb, connRun, connStep, buildConnCount]
      · cases hd : dbg st.attempt with
        | throws m =>
          simp [runFrom, he, failStep, debugCont, hb, hd, connRun, connStep, buildConnCount]
        | patch fixes u =>
          cases fixes with
          | nil =>
            simp [runFrom, he, failStep, debugCont, hb, hd, connRun, connStep, buildConnCount]
          | cons f fs =>
            have hrec := ih ⟨.DEBUGGING, st.attempt + 1, debugMerge st.files (f :: fs) u,
              "Build connection closed unexpectedly."⟩ (k + 1)
            simp [runFrom, he, failStep, debugCont, hb, hd, connRun, connStep,
              buildConnCount, List.countP_append, List.countP_cons, hrec]
            omega

/-- C2: over a whole session trace — a full build/debug loop with arbitrary
executor and repair behaviour, followed by a rebuild running a second loop —
the connection-discipline checker accepts: every connection is opened only
after the previously open one has been closed (the checker's live slot must
be empty at each open), connection ids are issued sequentially, and every
connection-tagged event (terminal outcome or close) names the newest
connection, so no event of a superseded connection is observed after the
next connection opens.  The final checker state has no live connection and
an id counter equal to the number of connections opened. -/
theorem c2_single_live_connection (exec1 exec2 : Nat → ExecOutcome)
    (dbg1 dbg2 : Nat → DebugResult) (fuel2 : Nat) (files : List GeneratedFile) :
    connRun (none, 0) (sessionWithRebuild exec1 exec2 dbg1 dbg2 fuel2 files)
      = some (none, buildConnCount (sessionWithRebuild exec1 exec2 dbg1 dbg2 fuel2 files)) := by
  have h1 : connRun (none, 0) (runPipeline exec1 dbg1 files).2
      = some (none, buildConnCount (runPipeline exec1 dbg1 files).2) := by
    simpa [runPipeline] using
      runFrom_conn exec1 dbg1 MAX_FIX_ATTEMPTS ⟨.CODING, 0, files, ""⟩ 0
  show connRun (none, 0) ((runPipeline exec1 dbg1 files).2 ++ _) = _
  rw [connRun_append _ _ _ _ h1]
  rw [runFrom_conn exec2 dbg2 fuel2
    { (runPipeline exec1 dbg1 files).1 with attempt := 0, lastError := "" }
    (buildConnCount (runPipeline exec1 dbg1 files).2)]
  simp [sessionWithRebuild, buildConnCount, List.countP_append]

/-! ## Claim C1: retry bound — 3 build attempts, 2 repairs, then ERROR -/

/-- C1: from a reset attempt counter, against a build executor that reports
failure (BUILD_ERROR) on every attempt and a repair collaborator that
returns a non-empty patch on every invocation, the loop ends in ERROR with
the attempt counter at 3, after exactly 3 build attempts (connections
opened) and exactly 2 debug-loop invocations; the third failure escalates
to ERROR without a further repair call (3 opens but only 2 repair events in
the trace). -/
theorem c1_retry_bound (exec : Nat → ExecOutcome) (dbg : Nat → DebugResult)
    (msgs : Nat → String) (files : List GeneratedFile)
    (hexec : ∀ k, exec k = .buildError (msgs k))
    (hdbg : ∀ n, ∃ f fs updatedReqs, dbg n = .patch (f :: fs) updatedReqs) :
    (runPipeline exec dbg files).1.buildState = .ERROR ∧
    (runPipeline exec dbg files).1.attempt = 3 ∧
    buildConnCount (runPipeline exec dbg files).2 = 3 ∧
    debugCallCount (runPipeline exec dbg files).2 = 2 := by
  obtain ⟨f0, fs0, u0, hd0⟩ := hdbg 0
  obtain ⟨f1, fs1, u1, hd1⟩ := hdbg 1
  have e0 := hexec 0
  have e1 := hexec 1
  have e2 := hexec 2
  simp [runPipeline, MAX_FIX_ATTEMPTS, runFrom, failStep, debugCont, e0, e1, e2, hd0, hd1,
    buildConnCount, debugCallCount]

/-- Witness for C1: an always-failing executor and an always-patching
repair collaborator. -/
theorem c1_retry_bound_witness :
    (runPipeline (fun _ => .buildError "boom")
        (fun _ => .patch [⟨"main.py", "fixed", "retry"⟩] []) []).1.buildState = .ERROR ∧
    (runPipeline (fun _ => .buildError "boom")
        (fun _ => .patch [⟨"main.py", "fixed", "retry"⟩] []) []).1.attempt = 3 ∧
    buildConnCount (runPipeline (fun _ => .buildError "boom")
        (fun _ => .patch [⟨"main.py", "fixed", "retry"⟩] []) []).2 = 3 ∧
    debugCallCount (runPipeline (fun _ => .buildError "boom")
        (fun _ => .patch [⟨"main.py", "fixed", "retry"⟩] []) []).2 = 2 :=
  c1_retry_bound (fun _ => .buildError "boom")
    (fun _ => .patch [⟨"main.py", "fixed", "retry"⟩] []) (fun _ => "boom") []
    (fun _ => rfl) (fun _ => ⟨⟨"main.py", "fixed", "retry"⟩, [], [], rfl⟩)

/-! ## Claim C5: a fatal debug step escalates immediately -/

/-- C5: a fatal repair response (the collaborator throws, or returns zero
patched files) escalates to ERROR immediately, with no further repair call
and no further build attempt.  First conjunct: a fatal first repair ends
the loop in ERROR with the attempt counter at 1, one build attempt, one
repair invocation.  Second conjunct (independence of the remaining attempt
budget): with two failing builds and a successful first repair, a fatal
second repair ends in ERROR with the attempt counter at 2, two build
attempts and two repair invocations — the remaining budget (a third build
attempt was still allowed) is not consumed. -/
theorem c5_debug_fatal :
    (∀ (exec : Nat → ExecOutcome) (dbg : Nat → DebugResult)
        (msg : String) (files : List GeneratedFile),
      exec 0 = .buildError msg →
      debugFatal (dbg 0) = true →
      (runPipeline exec dbg files).1.buildState = .ERROR ∧
      (runPipeline exec dbg files).1.attempt = 1 ∧
      buildConnCount (runPipeline exec dbg files).2 = 1 ∧
      debugCallCount (runPipeline exec dbg files).2 = 1) ∧
    (∀ (exec : Nat → ExecOutcome) (dbg : Nat → DebugResult)
        (m0 m1 : String) (files : List GeneratedFile),
      exec 0 = .buildError m0 →
      exec 1 = .buildError m1 →
      (∃ f fs updatedReqs, dbg 0 = .patch (f :: fs) updatedReqs) →
      debugFatal (dbg 1) = true →
      (runPipeline exec dbg files).1.buildState = .ERROR ∧
      (runPipeline exec dbg files).1.attempt = 2 ∧
      buildConnCount (runPipeline exec dbg files).2 = 2 ∧
      debugCallCount (runPipeline exec dbg files).2 = 2) := by
  constructor
  · intro exec dbg msg files hexec hdbg
    cases hd : dbg 0 with
    | throws m =>
      simp [runPipeline, MAX_FIX_ATTEMPTS, runFrom, failStep, debugCont, hexec, hd,
        buildConnCount, debugCallCount]
    | patch fixes u =>
      cases fixes with
      | nil =>
        simp [runPipeline, MAX_FIX_ATTEMPTS, runFrom, failStep, debugCont, hexec, hd,
          buildConnCount, debugCallCount]
      | cons f fs =>
        rw [hd] at hdbg
        simp [debugFatal] at hdbg
  · intro exec dbg m0 m1 files hexec0 hexec1 hdbg0 hdbg1
    obtain ⟨f0, fs0, u0, hd0⟩ := hdbg0
    cases hd1 : dbg 1 with
    | throws m =>
      simp [runPipeline, MAX_FIX_ATTEMPTS, runFrom, failStep, debugCont, hexec0, hexec1,
        hd0, hd1, buildConnCount, debugCallCount]
    | patch fixes u =>
      cases fixes with
      | nil =>
        simp [runPipeline, MAX_FIX_ATTEMPTS, runFrom, failStep, debugCont, hexec0, hexec1,
          hd0, hd1, buildConnCount, debugCallCount]
      | cons f fs =>
        rw [hd1] at hdbg1
        simp [debugFatal] at hdbg1

/-- Witness for C5: a failing build and a repair that throws on its first
invocation; and, for the budget-independence part, two failing builds with
a repair that patches once and throws on its second invocation. -/
theorem c5_debug_fatal_witness :
    ((runPipeline (fun _ => .buildError "boom")
        (fun _ => .throws "AI could not determine a fix") []).1.buildState = .ERROR ∧
     (runPipeline (fun _ => .buildError "boom")
        (fun _ => .throws "AI could not determine a fix") []).1.attempt = 1 ∧
     buildConnCount (runPipeline (fun _ => .buildError "boom")
        (fun _ => .throws "AI could not determine a fix") []).2 = 1 ∧
     debugCallCount (runPipeline (fun _ => .buildError "boom")
        (fun _ => .throws "AI could not determine a fix") []).2 = 1) ∧
    ((runPipeline (fun _ => .buildError "boom")
        (fun n => if n = 0 then .patch [⟨"main.py", "fixed", "retry"⟩] []
                  else .throws "AI gave up") []).1.buildState = .ERROR ∧
     (runPipeline (fun _ => .buildError "boom")
        (fun n => if n = 0 then .patch [⟨"main.py", "fixed", "retry"⟩] []
                  else .throws "AI gave up") []).1.attempt = 2 ∧
     buildConnCount (runPipeline (fun _ => .buildError "boom")
        (fun n => if n = 0 then .patch [⟨"main.py", "fixed", "retry"⟩] []
                  else .throws "AI gave up") []).2 = 2 ∧
     debugCallCount (runPipeline (fun _ => .buildError "boom")
        (fun n => if n = 0 then .patch [⟨"main.py", "fixed", "retry"⟩] []
                  else .throws "AI gave up") []).2 = 2) :=
  ⟨c5_debug_fatal.1 (fun _ => .buildError "boom")
      (fun _ => .throws "AI could not determine a fix") "boom" [] rfl rfl,
   c5_debug_fatal.2 (fun _ => .buildError "boom")
      (fun n => if n = 0 then .patch [⟨"main.py", "fixed", "retry"⟩] []
                else .throws "AI gave up") "boom" "boom" [] rfl rfl
      ⟨⟨"main.py", "fixed", "retry"⟩, [], [], rfl⟩ rfl⟩

/-! ## Claim C10: a normal (1000) close before any terminal message -/

/-- Helper: from an unresolved client state, any number of BUILD_LOG
messages followed by a close with code 1000 produces no outcome callback,
cancels the watchdog, and leaves the single-resolution flag unset. -/
theorem wsRun_logs_close1000 (lines : List String) (st : WsClientState)
    (hc : st.completed = false) :
    List.countP isOutcomeCall
      (wsRun st (lines.map (fun l => WsEvent.msg (.buildLog l))
        ++ [WsEvent.close 1000])).2 = 0 ∧
    (wsRun st (lines.map (fun l => WsEvent.msg (.buildLog l))
        ++ [WsEvent.close 1000])).1.timerArmed = false ∧
    (wsRun st (lines.map (fun l => WsEvent.msg (.buildLog l))
        ++ [WsEvent.close 1000])).1.completed = false := by
  induction lines generalizing st with
  | nil =>
    simp [wsRun, wsStep, hc, isOutcomeCall]
  | cons l rest ih =>
    have hstep := ih (wsStep st (WsEvent.msg (.buildLog l))).1 hc
    simp only [List.map_cons, List.cons_append] at hstep ⊢
    rw [show wsRun st (WsEvent.msg (.buildLog l)
        :: (rest.map (fun x => WsEvent.msg (.buildLog x)) ++ [WsEvent.close 1000]))
      = ((wsRun (wsStep st (WsEvent.msg (.buildLog l))).1
          (rest.map (fun x => WsEvent.msg (.buildLog x)) ++ [WsEvent.close 1000])).1,
         (wsStep st (WsEvent.msg (.buildLog l))).2
           ++ (wsRun (wsStep st (WsEvent.msg (.buildLog l))).1
             (rest.map (fun x => WsEvent.msg (.buildLog x)) ++ [WsEvent.close 1000])).2)
      from rfl]
    simp only [List.countP_append]
    refine ⟨?_, hstep.2.1, hstep.2.2⟩
    rw [hstep.1]
    simp [wsStep, isOutcomeCall]

/-- C10: if the build connection closes with the normal closure code 1000
before any terminal message (only BUILD_LOG messages arrived), the client
invokes neither the completion callback nor the error callback (no outcome
callback at all) and cancels its watchdog, and at pipeline level a build
connection whose executor sends no terminal message and closes normally
leaves the session in BUILDING. -/
theorem c10_silent_normal_close :
    (∀ lines : List String,
      List.countP isOutcomeCall
        (wsRun initWsClientState (lines.map (fun l => WsEvent.msg (.buildLog l))
          ++ [WsEvent.close 1000])).2 = 0 ∧
      (wsRun initWsClientState (lines.map (fun l => WsEvent.msg (.buildLog l))
          ++ [WsEvent.close 1000])).1.timerArmed = false ∧
      (wsRun initWsClientState (lines.map (fun l => WsEvent.msg (.buildLog l))
          ++ [WsEvent.close 1000])).1.completed = false) ∧
    (∀ (dbg : Nat → DebugResult) (st : LoopState) (k fuel : Nat),
      (runFrom (fun _ => ExecOutcome.silentClose) dbg (fuel + 1) st k).1.buildState
        = .BUILDING) :=
  ⟨fun lines => wsRun_logs_close1000 lines initWsClientState rfl,
   fun _ _ _ _ => rfl⟩
